import Mathlib

/-!
Verification of the RAG orchestration pipeline of the `ragjs` repository.

The development shallowly embeds the core components as executable Lean
functions translated from the TypeScript source:

* `DocumentProcessor.splitTextIntoChunks` (boundary-aware chunker),
* `EmbeddingService.createEmbeddingBatch` (batched embedding gateway),
* `VectorService.addDocuments` / `search` / `deleteDocument` / `deleteChunks`,
* `GenerationService.parseModelString` / provider selection / `healthCheck`,
* the chat route handler (session history, context assembly, generation
  fallback).

JavaScript strings are modelled as `List Char`; wall-clock timestamps,
network latency and logging are outside the model.  External provider and
index calls are abstracted as explicit outcome ports (`Except String _`
valued parameters), so every function stays executable and deterministic.
-/

namespace Ragjs

/-- The JavaScript whitespace characters relevant to `String.prototype.trim`
restricted to the ASCII range used by this code base
(space, tab, line feed, carriage return, vertical tab, form feed). -/
def isJsWhitespace (c : Char) : Bool :=
  c = ' ' || c = '\t' || c = '\n' || c = '\r' || c.toNat = 11 || c.toNat = 12

/-- `String.prototype.trim`: drop leading and trailing whitespace. -/
def jsTrim (l : List Char) : List Char :=
  ((l.dropWhile isJsWhitespace).reverse.dropWhile isJsWhitespace).reverse

/-- `String.prototype.slice(start, end)` for non-negative indices:
the characters at positions `start ≤ i < stop`. -/
def jsSlice (l : List Char) (start stop : Nat) : List Char :=
  (l.take stop).drop start

/-- `Array.prototype.slice(-n)` / `String.prototype.slice(-n)`:
the last `n` elements (the whole list when it is shorter). -/
def jsSliceLast (n : Nat) (l : List α) : List α :=
  l.drop (l.length - n)

/-- `String.prototype.lastIndexOf(c, pos)`: the largest index `i ≤ pos`
with `l[i] = c`, or `-1` when there is none.  Searches downward from
`pos`; indices beyond the end of the list never match (`l[i]?` is `none`),
which reproduces the clamping behaviour of the JavaScript method. -/
def lastIndexOf (l : List Char) (c : Char) : Nat → Int
  | 0 => if l[0]? = some c then (0 : Int) else -1
  | n + 1 => if l[n + 1]? = some c then ((n + 1 : Nat) : Int) else lastIndexOf l c n

/-! ### Chunker (`DocumentProcessor.splitTextIntoChunks`, src/unnamed/part_002) -/

/-- The cut-point adjustment of one chunk window: when the window end is
interior, reverse-scan from `rawEnd` (inclusive) for the last space,
newline or period and move the cut to one past it, provided the resulting
chunk is strictly longer than half of `chunkSize`
(source condition `bestCutPoint > start + chunkSize * 0.5`). -/
def adjustEnd (text : List Char) (chunkSize start rawEnd : Nat) : Nat :=
  if rawEnd < text.length then
    let lastSpaceIndex := lastIndexOf text ' ' rawEnd
    let lastNewlineIndex := lastIndexOf text '\n' rawEnd
    let lastPeriodIndex := lastIndexOf text '.' rawEnd
    let bestCutPoint := max lastSpaceIndex (max lastNewlineIndex lastPeriodIndex)
    if 2 * bestCutPoint > 2 * (start : Int) + (chunkSize : Int) then
      (bestCutPoint + 1).toNat
    else rawEnd
  else rawEnd

/-- The next window start: `Math.max(start + chunkSize - overlap, end)`.
Truncated `Nat` subtraction agrees with the JavaScript expression because a
negative `start + chunkSize - overlap` is dominated by `end ≥ 0` in the
maximum. -/
def chunkNext (start chunkSize overlap endPos : Nat) : Nat :=
  max (start + chunkSize - overlap) endPos

/-- One window of the chunking loop: raw end, boundary adjustment, trim. -/
def chunkWindowEnd (text : List Char) (chunkSize start : Nat) : Nat :=
  adjustEnd text chunkSize start (min (start + chunkSize) text.length)

/-- The `while (start < text.length)` loop of `splitTextIntoChunks`,
with explicit fuel.  The source loop diverges for `chunkSize = 0`; on the
domain of the claims (`overlap < chunkSize`) fuel `text.length` is exact
(`chunkLoop_fuel_irrel`). -/
def chunkLoop (text : List Char) (chunkSize overlap : Nat) : Nat → Nat → List (List Char)
  | _, 0 => []
  | start, fuel + 1 =>
    if start < text.length then
      let endPos := chunkWindowEnd text chunkSize start
      let chunk := jsTrim (jsSlice text start endPos)
      let rest := chunkLoop text chunkSize overlap (chunkNext start chunkSize overlap endPos) fuel
      if chunk.isEmpty then rest else chunk :: rest
    else []

/-- `DocumentProcessor.splitTextIntoChunks`. -/
def splitTextIntoChunks (text : List Char) (chunkSize overlap : Nat) : List (List Char) :=
  if text.length ≤ chunkSize then [text]
  else chunkLoop text chunkSize overlap 0 text.length

/-- A chunk-boundary character of the cut adjustment: space, newline, period. -/
def isBoundaryChar (c : Char) : Bool :=
  c = ' ' || c = '\n' || c = '.'

/-- `String.prototype.trim` on `String`. -/
def jsTrimString (s : String) : String :=
  String.mk (jsTrim s.data)

/-- `String.prototype.includes`. -/
def strIncludes (hay pat : String) : Bool :=
  (List.range (hay.data.length + 1)).any fun i => pat.data.isPrefixOf (hay.data.drop i)

/-- The `for (let i = 0; i < xs.length; i += size) batches.push(xs.slice(i, i + size))`
batching pattern used by `EmbeddingService.createEmbeddingBatch` (size 5) and
`VectorService.addDocuments` (size 100); the batch size is `m + 1` so the
recursion is well founded for every parameter. -/
def batchesOfPos (m : Nat) : List α → List (List α)
  | [] => []
  | x :: xs => (x :: xs.take m) :: batchesOfPos m (xs.drop m)
termination_by l => l.length
decreasing_by simp only [List.length_drop, List.length_cons]; omega

/-! ### Generation orchestrator (`GenerationService.ts`) -/

/-- The canonical generation result (`GenerationResult` minus the
wall-clock `processing_time`). -/
structure GenerationResult where
  content : String
  model : String
  tokens_used : Nat
  provider : String
  finish_reason : String
deriving Repr, DecidableEq

/-- `GenerationService.getDefaultModelForProvider`. -/
def getDefaultModelForProvider (provider : String) : String :=
  if provider = "google" then "gemini-2.0-flash-exp"
  else if provider = "openai" then "gpt-4o"
  else if provider = "anthropic" then "claude-3-5-haiku-20241022"
  else if provider = "cohere" then "command-r-plus-08-2024"
  else "gemini-2.0-flash-exp"

/-- `GenerationService.parseModelString`: infer the provider from known
model-name substrings; otherwise fall back to the first available provider
(`availableProviders[0] || 'google'`) with its default model. -/
def parseModelString (availableProviders : List String) (modelString : String) :
    String × String :=
  if strIncludes modelString "gpt" then ("openai", modelString)
  else if strIncludes modelString "claude" then ("anthropic", modelString)
  else if strIncludes modelString "command" then ("cohere", modelString)
  else if strIncludes modelString "gemini" then ("google", modelString)
  else (availableProviders.headD "google",
        getDefaultModelForProvider (availableProviders.headD "google"))

/-- The JavaScript default `v || dflt` for strings (absent or empty falls
back to the default). -/
def jsOrString (v : Option String) (dflt : String) : String :=
  match v with
  | none => dflt
  | some s => if s = "" then dflt else s

/-- The provider/model selection step of `GenerationService.generateResponse`:
`options.model || 'auto'`, then either the first available provider (for
`'auto'`) or `parseModelString`. -/
def selectProviderModel (availableProviders : List String) (modelOpt : Option String) :
    String × String :=
  let model := jsOrString modelOpt "auto"
  if model = "auto" then
    (availableProviders.headD "google",
     getDefaultModelForProvider (availableProviders.headD "google"))
  else parseModelString availableProviders model

/-- `GenerationService.generateResponse`: fail when no provider is
available, otherwise select a provider/model and dispatch; a provider
failure is re-raised as a `Generation failed:` error.  The provider call
(with the shaped messages and numeric options) is abstracted as `port`. -/
def generateResponseSvc (availableProviders : List String)
    (port : String → String → Except String GenerationResult)
    (modelOpt : Option String) : Except String GenerationResult :=
  if availableProviders.length = 0 then Except.error "No AI providers available"
  else
    let sel := selectProviderModel availableProviders modelOpt
    match port sel.1 sel.2 with
    | Except.ok r => Except.ok r
    | Except.error e => Except.error ("Generation failed: " ++ e)

/-- The health verdict of one probe: healthy exactly when the call
succeeded with non-empty content (`result.content.length > 0`), `false`
when the call threw. -/
def healthFlag (outcome : Except String GenerationResult) : Bool :=
  match outcome with
  | Except.ok r => 0 < r.content.length
  | Except.error _ => false

/-- `GenerationService.healthCheck`: for each available provider, one
minimal low-token request with model string `"<provider>:auto"`, flagged
by `healthFlag`.  The fixed test message and the low-token options are
absorbed into `port`. -/
def healthCheck (availableProviders : List String)
    (port : String → String → Except String GenerationResult) : List (String × Bool) :=
  availableProviders.map fun p =>
    (p, healthFlag (generateResponseSvc availableProviders port (some (p ++ ":auto"))))

/-! ### Embedding gateway (`EmbeddingService`, src/unnamed/part_001) -/

/-- The result of one embedding call; vector components are opaque numbers
(the code never computes with them), modelled as `Int`. -/
structure EmbeddingResult where
  embedding : List Int
  model : String
  tokens_used : Nat
deriving Repr, DecidableEq

/-- `Promise.all` over the fan-out of one sub-batch: succeed with all
results in order, or fail with the first rejection. -/
def collectResults : List (Except String EmbeddingResult) →
    Except String (List EmbeddingResult)
  | [] => Except.ok []
  | Except.error e :: _ => Except.error e
  | Except.ok r :: rest =>
    match collectResults rest with
    | Except.ok rs => Except.ok (r :: rs)
    | Except.error e => Except.error e

/-- The sequential sub-batch loop of `createEmbeddingBatch`, returning the
outcome together with a trace of every text actually handed to the
provider (all texts of a sub-batch are issued concurrently; later
sub-batches are not started after a failure). -/
def embedBatchLoop (embedOne : String → Except String EmbeddingResult) :
    List (List String) → Except String (List EmbeddingResult) × List String
  | [] => (Except.ok [], [])
  | b :: rest =>
    match collectResults (b.map embedOne) with
    | Except.error e => (Except.error e, b)
    | Except.ok rs =>
      match embedBatchLoop embedOne rest with
      | (Except.ok rs', tr) => (Except.ok (rs ++ rs'), b ++ tr)
      | (Except.error e, tr) => (Except.error e, b ++ tr)

/-- `EmbeddingService.createEmbeddingBatch` instrumented with the trace of
issued provider requests.  The two input validations (`texts.length === 0`,
`texts.length > 100`) happen *before* the `try` block, so they are not
wrapped in `Batch embedding failed:` and issue no provider request. -/
def createEmbeddingBatchTrace (texts : List String)
    (embedOne : String → Except String EmbeddingResult) :
    Except String (List EmbeddingResult) × List String :=
  if texts.length = 0 then
    (Except.error "Texts array is required for batch embedding", [])
  else if 100 < texts.length then
    (Except.error "Too many texts for batch embedding (max: 100)", [])
  else
    match embedBatchLoop embedOne (batchesOfPos 4 texts) with
    | (Except.ok rs, tr) => (Except.ok rs, tr)
    | (Except.error e, tr) => (Except.error ("Batch embedding failed: " ++ e), tr)

/-! ### Vector store gateway (`VectorService`, src/unnamed/part_001) -/

/-- A document chunk as handed to `VectorService.addDocuments`; metadata
fields that never influence control flow (`file_type`, `created_at`,
`page`, `chunk_size`) are omitted. -/
structure DocumentChunk where
  id : String
  content : String
  source : String
  chunk_index : Nat
  document_id : String
deriving Repr, DecidableEq

/-- One Qdrant upsert point (`{id, vector, payload}` with the payload
flattened to its content). -/
structure UpsertPoint where
  id : String
  vector : List Int
  content : String
deriving Repr, DecidableEq

/-- The per-batch body of `VectorService.addDocuments`: embed the batch
contents, build the points (`embeddings[index]?.embedding || []`), upsert,
accumulate the count; any error aborts the remaining batches. -/
def addDocumentsLoop (embedBatch : List String → Except String (List EmbeddingResult))
    (upsert : List UpsertPoint → Except String Unit) :
    List (List DocumentChunk) → Except String Nat
  | [] => Except.ok 0
  | batch :: rest =>
    match embedBatch (batch.map (·.content)) with
    | Except.error e => Except.error e
    | Except.ok embs =>
      let points := batch.enum.map fun ic =>
        UpsertPoint.mk ic.2.id (((embs.get? ic.1).map EmbeddingResult.embedding).getD [])
          ic.2.content
      match upsert points with
      | Except.error e => Except.error e
      | Except.ok _ =>
        match addDocumentsLoop embedBatch upsert rest with
        | Except.ok n => Except.ok (batch.length + n)
        | Except.error e => Except.error e

/-- `VectorService.addDocuments`: validate, process batches of 100, and
re-raise any failure as `Failed to add documents:` — upsert errors
propagate to the caller. -/
def addDocuments (isInit : Bool) (chunks : List DocumentChunk)
    (embedBatch : List String → Except String (List EmbeddingResult))
    (upsert : List UpsertPoint → Except String Unit) : Except String Nat :=
  if !isInit then Except.error "Vector service is not initialized"
  else if chunks.length = 0 then Except.error "No document chunks provided"
  else
    match addDocumentsLoop embedBatch upsert (batchesOfPos 99 chunks) with
    | Except.ok n => Except.ok n
    | Except.error e => Except.error ("Failed to add documents: " ++ e)

/-- A raw hit returned by the Qdrant index. -/
structure QdrantHit where
  id : String
  score : Int
  content : Option String
  source : Option String
  page : Option Nat
deriving Repr, DecidableEq

/-- A normalized search result (`SearchResult` of `VectorService`), with
the metadata fields the chat route reads. -/
structure SearchResult where
  id : String
  content : String
  score : Int
  msource : String
  mpage : Option Nat
  chunk_id : String
  mscore : Int
deriving Repr, DecidableEq

/-- `VectorService.search`: validate, embed the query, query the index,
normalize the hits.  Any embedding or index failure is caught, logged and
**re-thrown** as `Vector search failed:` — the gateway itself does not
degrade to an empty list. -/
def vectorSearch (isInit : Bool) (query : String)
    (embedPort : Except String (List Int))
    (indexPort : List Int → Except String (List QdrantHit)) :
    Except String (List SearchResult) :=
  if !isInit then Except.error "Vector service is not initialized"
  else if jsTrimString query = "" then Except.error "Search query is required"
  else
    match embedPort with
    | Except.error e => Except.error ("Vector search failed: " ++ e)
    | Except.ok v =>
      match indexPort v with
      | Except.error e => Except.error ("Vector search failed: " ++ e)
      | Except.ok hits => Except.ok (hits.map fun h =>
          SearchResult.mk h.id (h.content.getD "") h.score (h.source.getD "")
            h.page h.id h.score)

/-- `VectorService.deleteDocument`: an index error is caught and reported
as the normal return value `false` — it does not propagate. -/
def deleteDocument (isInit : Bool) (documentId : String)
    (deletePort : Except String Unit) : Except String Bool :=
  if !isInit then Except.error "Vector service is not initialized"
  else
    match deletePort with
    | Except.ok _ => Except.ok true
    | Except.error _ => Except.ok false

/-- `VectorService.deleteChunks`: an index error is caught and reported as
the normal return value `0` — it does not propagate. -/
def deleteChunks (isInit : Bool) (chunkIds : List String)
    (deletePort : Except String Unit) : Except String Nat :=
  if !isInit then Except.error "Vector service is not initialized"
  else if chunkIds.length = 0 then Except.ok 0
  else
    match deletePort with
    | Except.ok _ => Except.ok chunkIds.length
    | Except.error _ => Except.ok 0

/-! ### Chat route (`src/apps/backend/src/routes/chat.ts`) -/

/-- A conversation message; assistant messages carry the generation
metadata, timestamps are outside the model. -/
structure ChatMsg where
  role : String
  content : String
  metaModel : Option String := none
  metaTokens : Option Nat := none
  metaSources : Option Nat := none
deriving Repr, DecidableEq

/-- The user message appended for the incoming chat text. -/
def mkUserMsg (content : String) : ChatMsg :=
  ChatMsg.mk "user" content none none none

/-- The assistant message appended after generation. -/
def mkAssistantMsg (content model : String) (tokens sources : Nat) : ChatMsg :=
  ChatMsg.mk "assistant" content (some model) (some tokens) (some sources)

/-- The route-level generation outcome (`{content, model, tokens_used, provider}`). -/
structure AiResponse where
  content : String
  model : String
  tokens_used : Nat
  provider : String
deriving Repr, DecidableEq

/-- The fixed degraded answer substituted when generation fails. -/
def fallbackAiResponse : AiResponse :=
  AiResponse.mk
    "죄송합니다. 현재 AI 서비스에 문제가 있어 답변을 생성할 수 없습니다. 잠시 후 다시 시도해주세요."
    "fallback" 0 "system"

/-- A source entry of the chat response, as mapped by `performVectorSearch`. -/
structure RouteSource where
  content : String
  source : String
  page : Nat
  chunk_id : String
  score : Int
deriving Repr, DecidableEq

/-- JavaScript `s || dflt` for strings. -/
def jsOrStr (s dflt : String) : String :=
  if s = "" then dflt else s

/-- JavaScript `v || dflt` for optional numbers (`undefined` and `0` are
falsy). -/
def jsOrNat (v : Option Nat) (dflt : Nat) : Nat :=
  match v with
  | none => dflt
  | some 0 => dflt
  | some n => n

/-- The result mapping of the route's `performVectorSearch`. -/
def toRouteSource (r : SearchResult) : RouteSource :=
  RouteSource.mk r.content (jsOrStr r.msource "unknown") (jsOrNat r.mpage 1)
    (jsOrStr r.chunk_id r.id) r.mscore

/-- The route's `performVectorSearch`: empty list when the vector service
is unavailable, and — via its catch-all — an empty list whenever
`vectorService.search` throws.  The search call is abstracted as its
outcome. -/
def performVectorSearch (available : Bool)
    (searchOutcome : Except String (List SearchResult)) : List RouteSource :=
  if !available then []
  else
    match searchOutcome with
    | Except.ok rs => rs.map toRouteSource
    | Except.error _ => []

/-- The system instruction built by the route's `generateResponse`
(`context.relevant_documents || '관련 문서를 찾을 수 없습니다.'`). -/
def systemPrompt (relevantDocuments : String) : String :=
  "당신은 도움이 되는 AI 어시스턴트입니다. 제공된 문서를 기반으로 사용자의 질문에 정확하고 유용한 답변을 제공하세요.\n\n다음은 관련 문서 내용입니다:\n"
    ++ (if relevantDocuments = "" then "관련 문서를 찾을 수 없습니다." else relevantDocuments)
    ++ "\n\n답변 시 다음 사항을 준수하세요:\n1. 제공된 문서 내용을 기반으로 답변하세요\n2. 문서에 없는 내용은 추측하지 말고 솔직히 모른다고 하세요\n3. 가능한 한 구체적이고 도움이 되는 답변을 제공하세요\n4. 한국어로 자연스럽게 답변하세요"

/-- The retrieved passages joined with blank lines (`prepareContext`). -/
def relevantDocumentsOf (sources : List RouteSource) : String :=
  String.intercalate "\n\n" (sources.map RouteSource.content)

/-- The message list handed to the generation orchestrator:
`[system, ...conversation_history.slice(-6), user]`, where
`conversation_history` is itself `history.slice(-6)` from `prepareContext`
and `history` already contains the just-appended current user message. -/
def routeGenMessages (history1 : List ChatMsg) (sources : List RouteSource)
    (query : String) : List ChatMsg :=
  ChatMsg.mk "system" (systemPrompt (relevantDocumentsOf sources)) none none none ::
    (jsSliceLast 6 (jsSliceLast 6 history1) ++ [mkUserMsg query])

/-- The route's `generateResponse`: throw when no provider is available,
call the orchestrator, and convert *any* failure into the fixed fallback
response via the catch-all. -/
def routeGenerateResponse (providers : List String)
    (genPort : List ChatMsg → Except String GenerationResult)
    (history1 : List ChatMsg) (sources : List RouteSource) (query : String) :
    AiResponse :=
  if providers.length = 0 then fallbackAiResponse
  else
    match genPort (routeGenMessages history1 sources query) with
    | Except.ok r => AiResponse.mk r.content r.model r.tokens_used r.provider
    | Except.error _ => fallbackAiResponse

/-- The chat response body (wall-clock `processing_time` omitted). -/
structure ChatResponse where
  answer : String
  session_id : String
  sources : List RouteSource
  tokens_used : Nat
  model_used : String
deriving Repr, DecidableEq

/-- The HTTP-level outcome of one chat invocation. -/
inductive ChatOutcome where
  | success (resp : ChatResponse)
  | failure (message code : String) (status : Nat)
deriving Repr, DecidableEq

/-- `router.post('/')` of the chat route for one invocation: validation,
user-message append, retrieval, context assembly, generation with
fallback, assistant-message append, history cap at 10.  External calls are
abstracted as their outcomes (`searchOutcome`, `genPort`); the session id
and timestamps are ambient inputs. -/
def chatPost (message : String) (sessionHistory : List ChatMsg) (sessionId : String)
    (providers : List String) (searchAvailable : Bool)
    (searchOutcome : Except String (List SearchResult))
    (genPort : List ChatMsg → Except String GenerationResult) :
    ChatOutcome × List ChatMsg :=
  if jsTrimString message = "" then
    (ChatOutcome.failure "Message is required" "EMPTY_MESSAGE" 400, sessionHistory)
  else if 4000 < message.length then
    (ChatOutcome.failure "Message too long (max: 4000 characters)" "MESSAGE_TOO_LONG" 400,
      sessionHistory)
  else
    let history1 := sessionHistory ++ [mkUserMsg message]
    let sources := performVectorSearch searchAvailable searchOutcome
    let ai := routeGenerateResponse providers genPort history1 sources message
    let history2 := history1 ++ [mkAssistantMsg ai.content ai.model ai.tokens_used sources.length]
    let history3 := if 10 < history2.length then jsSliceLast 10 history2 else history2
    (ChatOutcome.success (ChatResponse.mk ai.content sessionId sources ai.tokens_used ai.model),
      history3)

/-! ### Chunker lemmas -/

theorem lastIndexOf_le (l : List Char) (c : Char) (pos : Nat) :
    lastIndexOf l c pos ≤ (pos : Int) := by
  induction pos with
  | zero => simp only [lastIndexOf]; split <;> omega
  | succ n ih =>
    simp only [lastIndexOf]
    split
    · omega
    · exact le_trans ih (by exact_mod_cast Nat.le_succ n)

theorem lastIndexOf_neg_or (l : List Char) (c : Char) (pos : Nat) :
    lastIndexOf l c pos = -1 ∨
      ∃ i : Nat, lastIndexOf l c pos = (i : Int) ∧ i ≤ pos ∧ l[i]? = some c := by
  induction pos with
  | zero =>
    simp only [lastIndexOf]
    split
    · exact Or.inr ⟨0, rfl, le_refl 0, by assumption⟩
    · exact Or.inl rfl
  | succ n ih =>
    simp only [lastIndexOf]
    split
    · exact Or.inr ⟨n + 1, rfl, le_refl _, by assumption⟩
    · rcases ih with h | ⟨i, hi, hle, hget⟩
      · exact Or.inl h
      · exact Or.inr ⟨i, hi, Nat.le_succ_of_le hle, hget⟩

theorem lastIndexOf_maximal (l : List Char) (c : Char) (pos j : Nat)
    (hj : j ≤ pos) (hc : l[j]? = some c) :
    (j : Int) ≤ lastIndexOf l c pos := by
  induction pos with
  | zero =>
    interval_cases j
    simp [lastIndexOf, hc]
  | succ n ih =>
    simp only [lastIndexOf]
    split
    · exact_mod_cast hj
    · rcases Nat.lt_or_ge j (n + 1) with h | h
      · exact ih (Nat.lt_succ_iff.mp h)
      · exfalso
        have : j = n + 1 := le_antisymm hj h
        subst this
        simp_all

theorem chunkNext_gt (start chunkSize overlap endPos : Nat) (hov : overlap < chunkSize) :
    start < chunkNext start chunkSize overlap endPos :=
  lt_of_lt_of_le (by omega) (le_max_left _ _)

theorem chunkLoop_of_ge (text : List Char) (chunkSize overlap start fuel : Nat)
    (h : text.length ≤ start) :
    chunkLoop text chunkSize overlap start fuel = [] := by
  cases fuel with
  | zero => rfl
  | succ n =>
    simp only [chunkLoop]
    rw [if_neg (Nat.not_lt.mpr h)]

theorem chunkLoop_fuel_irrel (text : List Char) (chunkSize overlap : Nat)
    (hov : overlap < chunkSize) :
    ∀ f₁ f₂ start, text.length - start ≤ f₁ → text.length - start ≤ f₂ →
      chunkLoop text chunkSize overlap start f₁ = chunkLoop text chunkSize overlap start f₂ := by
  intro f₁
  induction f₁ with
  | zero =>
    intro f₂ start h₁ h₂
    rw [chunkLoop_of_ge _ _ _ _ _ (by omega), chunkLoop_of_ge _ _ _ _ _ (by omega)]
  | succ n ih =>
    intro f₂ start h₁ h₂
    cases f₂ with
    | zero =>
      rw [chunkLoop_of_ge _ _ _ _ _ (by omega), chunkLoop_of_ge _ _ _ _ _ (by omega)]
    | succ m =>
      by_cases hlt : start < text.length
      · have hnext := chunkNext_gt start chunkSize overlap
          (chunkWindowEnd text chunkSize start) hov
        simp only [chunkLoop, if_pos hlt]
        rw [ih m _ (by omega) (by omega)]
      · simp only [chunkLoop, if_neg hlt]

theorem chunkLoop_mem_ne_nil (text : List Char) (chunkSize overlap : Nat) :
    ∀ fuel start c, c ∈ chunkLoop text chunkSize overlap start fuel → c ≠ [] := by
  intro fuel
  induction fuel with
  | zero => intro start c hc; simp [chunkLoop] at hc
  | succ n ih =>
    intro start c hc
    simp only [chunkLoop] at hc
    split at hc
    · set chunk := jsTrim (jsSlice text start (chunkWindowEnd text chunkSize start)) with hchunk
      by_cases hemp : chunk.isEmpty
      · rw [if_pos hemp] at hc
        exact ih _ c hc
      · rw [if_neg hemp] at hc
        rcases List.mem_cons.mp hc with h | h
        · subst h; simpa [List.isEmpty_iff] using hemp
        · exact ih _ c h
    · simp at hc

/-! ### Claim theorems: chunker -/

/-- **C2** (corrected): for non-empty `text` and `0 ≤ overlap < chunkSize`,
`splitTextIntoChunks` terminates (fuel `text.length` is exact) and every
chunk it returns is non-empty; when the text fits in one chunk the result
is exactly `[text]`.  The original claim — at least one chunk for *every*
non-empty text — fails on whitespace-only texts longer than `chunkSize`
(see `splitTextIntoChunks_counterexample`). -/
theorem splitTextIntoChunks_total_nonempty (text : List Char) (chunkSize overlap : Nat)
    (hov : overlap < chunkSize) (hne : text ≠ []) :
    (∀ c ∈ splitTextIntoChunks text chunkSize overlap, c ≠ []) ∧
    (text.length ≤ chunkSize → splitTextIntoChunks text chunkSize overlap = [text]) ∧
    (∀ fuel, text.length ≤ fuel →
      chunkLoop text chunkSize overlap 0 fuel = chunkLoop text chunkSize overlap 0 text.length) := by
  refine ⟨?_, ?_, ?_⟩
  · intro c hc
    unfold splitTextIntoChunks at hc
    split at hc
    · rcases List.mem_singleton.mp hc with rfl
      exact hne
    · exact chunkLoop_mem_ne_nil text chunkSize overlap _ _ c hc
  · intro h
    simp [splitTextIntoChunks, h]
  · intro fuel hf
    exact chunkLoop_fuel_irrel text chunkSize overlap hov fuel text.length 0
      (by omega) (by omega)

/-- Witness for `splitTextIntoChunks_total_nonempty` at `"ab"`, `chunkSize 3`,
`overlap 0`. -/
theorem splitTextIntoChunks_total_nonempty_witness :
    (∀ c ∈ splitTextIntoChunks "ab".data 3 0, c ≠ []) ∧
    ("ab".data.length ≤ 3 → splitTextIntoChunks "ab".data 3 0 = ["ab".data]) ∧
    (∀ fuel, "ab".data.length ≤ fuel →
      chunkLoop "ab".data 3 0 0 fuel = chunkLoop "ab".data 3 0 0 "ab".data.length) :=
  splitTextIntoChunks_total_nonempty "ab".data 3 0 (by decide) (by decide)

/-- **C2 counterexample**: the non-empty text of four spaces with
`chunkSize = 3 > overlap = 0` yields an *empty* chunk list — the single
window trims to nothing and is discarded — refuting "returns a list
containing at least one non-empty chunk" for every non-empty text. -/
theorem splitTextIntoChunks_counterexample :
    "    ".data ≠ [] ∧ (0 : Nat) < 3 ∧ splitTextIntoChunks "    ".data 3 0 = [] := by
  decide

/-- **C7** (confirmed): with `0 ≤ overlap < chunkSize`, the next window
start `max(start + chunkSize - overlap, end)` strictly exceeds `start`, so
the chunking loop makes progress at every iteration and its result is
stable once the fuel covers the remaining text — the loop never runs
forever. -/
theorem chunkLoop_progress (text : List Char) (chunkSize overlap : Nat)
    (hov : overlap < chunkSize) :
    (∀ start endPos, start < chunkNext start chunkSize overlap endPos) ∧
    (∀ f₁ f₂ start, text.length - start ≤ f₁ → text.length - start ≤ f₂ →
      chunkLoop text chunkSize overlap start f₁ = chunkLoop text chunkSize overlap start f₂) :=
  ⟨fun start endPos => chunkNext_gt start chunkSize overlap endPos hov,
   chunkLoop_fuel_irrel text chunkSize overlap hov⟩

/-- Witness for `chunkLoop_progress` at `"abcd"`, `chunkSize 3`, `overlap 1`. -/
theorem chunkLoop_progress_witness :
    (∀ start endPos, start < chunkNext start 3 1 endPos) ∧
    (∀ f₁ f₂ start, "abcd".data.length - start ≤ f₁ → "abcd".data.length - start ≤ f₂ →
      chunkLoop "abcd".data 3 1 start f₁ = chunkLoop "abcd".data 3 1 start f₂) :=
  chunkLoop_progress "abcd".data 3 1 (by decide)

/-- **C3 counterexample**: the reverse scan `lastIndexOf(c, end)` is
*inclusive* of `end`, so a boundary character sitting exactly at the raw
window end moves the cut *forward* to `end + 1` — not backward to a
preceding boundary.  With `"aaaaaaaaaa.bbbb"`, `chunkSize 10`,
`overlap 3`, the period at index 10 (= the raw end) yields an adjusted
cut of 11 and a first chunk of 11 > 10 characters. -/
theorem adjustEnd_forward_counterexample :
    adjustEnd "aaaaaaaaaa.bbbb".data 10 0 10 = 11 ∧
    splitTextIntoChunks "aaaaaaaaaa.bbbb".data 10 3
      = ["aaaaaaaaaa.".data, "bbbb".data] ∧
    "aaaaaaaaaa.".data.length = 11 := by
  decide

/-- **C3** (corrected): for every interior window, if the cut point is
adjusted at all, it becomes `b + 1` where `b` is the *largest* index
`b ≤ rawEnd` (inclusive of the raw end, hence possibly one *past* it, not
always backward) holding a space, newline or period, no later index up to
`rawEnd` holds a boundary character, and the acceptance condition
`2 * b > 2 * start + chunkSize` (i.e. the resulting chunk strictly exceeds
50% of `chunkSize`) holds; otherwise the raw end is kept.  The concrete
example `split("aaaa bbbb cccc dddd", 10, 3)` does not cut mid-word. -/
theorem adjustEnd_characterization :
    (∀ (text : List Char) (chunkSize start rawEnd : Nat),
      rawEnd < text.length →
      adjustEnd text chunkSize start rawEnd ≠ rawEnd →
      ∃ b : Nat, adjustEnd text chunkSize start rawEnd = b + 1 ∧ b ≤ rawEnd ∧
        (∃ c, text[b]? = some c ∧ isBoundaryChar c = true) ∧
        2 * b > 2 * start + chunkSize ∧
        (∀ j c, b < j → j ≤ rawEnd → text[j]? = some c → isBoundaryChar c = false)) ∧
    splitTextIntoChunks "aaaa bbbb cccc dddd".data 10 3
      = ["aaaa bbbb".data, "cccc dddd".data] := by
  constructor
  · intro text chunkSize start rawEnd hlt hne
    simp only [adjustEnd, if_pos hlt] at hne ⊢
    set ls := lastIndexOf text ' ' rawEnd with hls
    set ln := lastIndexOf text '\n' rawEnd with hln
    set lp := lastIndexOf text '.' rawEnd with hlp
    set best := max ls (max ln lp) with hbest
    by_cases hcond : 2 * best > 2 * (start : Int) + (chunkSize : Int)
    · rw [if_pos hcond] at hne ⊢
      have hpos : (1 : Int) ≤ best := by omega
      refine ⟨best.toNat, by omega, ?_, ?_, ?_, ?_⟩
      · have h1 := lastIndexOf_le text ' ' rawEnd
        have h2 := lastIndexOf_le text '\n' rawEnd
        have h3 := lastIndexOf_le text '.' rawEnd
        rw [← hls] at h1; rw [← hln] at h2; rw [← hlp] at h3
        omega
      · have hsel : best = ls ∨ best = ln ∨ best = lp := by omega
        have pick : ∀ (c : Char), best = lastIndexOf text c rawEnd →
            isBoundaryChar c = true →
            ∃ c', text[best.toNat]? = some c' ∧ isBoundaryChar c' = true := by
          intro c hc hb
          rcases lastIndexOf_neg_or text c rawEnd with h | ⟨i, hi, _, hget⟩
          · rw [← hc] at h; omega
          · rw [← hc] at hi
            have : i = best.toNat := by omega
            exact ⟨c, by rw [← this]; exact hget, hb⟩
        rcases hsel with h | h | h
        · exact pick ' ' (by rw [h, hls]) (by decide)
        · exact pick '\n' (by rw [h, hln]) (by decide)
        · exact pick '.' (by rw [h, hlp]) (by decide)
      · omega
      · intro j c hbj hjr hget
        by_contra hb
        have hb' : isBoundaryChar c = true := by
          cases h : isBoundaryChar c
          · exact absurd h hb
          · rfl
        have hcsp : c = ' ' ∨ c = '\n' ∨ c = '.' := by
          simp only [isBoundaryChar, Bool.or_eq_true, decide_eq_true_eq] at hb'
          tauto
        have hmax : (j : Int) ≤ best := by
          rcases hcsp with rfl | rfl | rfl
          · have := lastIndexOf_maximal text ' ' rawEnd j hjr hget
            rw [← hls] at this; omega
          · have := lastIndexOf_maximal text '\n' rawEnd j hjr hget
            rw [← hln] at this; omega
          · have := lastIndexOf_maximal text '.' rawEnd j hjr hget
            rw [← hlp] at this; omega
        omega
    · rw [if_neg hcond] at hne
      exact absurd rfl hne
  · decide

/-- Witness for `adjustEnd_characterization` at the period-at-raw-end
input: the adjusted cut is `10 + 1`. -/
theorem adjustEnd_characterization_witness :
    ∃ b : Nat, adjustEnd "aaaaaaaaaa.bbbb".data 10 0 10 = b + 1 ∧ b ≤ 10 ∧
      (∃ c, "aaaaaaaaaa.bbbb".data[b]? = some c ∧ isBoundaryChar c = true) ∧
      2 * b > 2 * 0 + 10 ∧
      (∀ j c, b < j → j ≤ 10 → "aaaaaaaaaa.bbbb".data[j]? = some c →
        isBoundaryChar c = false) :=
  adjustEnd_characterization.1 "aaaaaaaaaa.bbbb".data 10 0 10 (by decide) (by decide)

/-! ### List helper lemmas -/

theorem jsSliceLast_suffix (n : Nat) (l : List α) : jsSliceLast n l <:+ l :=
  List.drop_suffix _ _

theorem jsSliceLast_length (n : Nat) (l : List α) :
    (jsSliceLast n l).length = min n l.length := by
  simp only [jsSliceLast, List.length_drop]
  omega

theorem jsSliceLast_idem (n : Nat) (l : List α) :
    jsSliceLast n (jsSliceLast n l) = jsSliceLast n l := by
  unfold jsSliceLast
  rw [List.length_drop, Nat.sub_eq_zero_of_le (by omega), List.drop_zero]

theorem jsSliceLast_cap (l : List α) :
    (if 10 < l.length then jsSliceLast 10 l else l) = jsSliceLast 10 l := by
  split
  · rfl
  · unfold jsSliceLast
    rw [Nat.sub_eq_zero_of_le (by omega), List.drop_zero]

theorem mem_jsSliceLast_append_singleton (n : Nat) (hn : 0 < n) (l : List α) (u : α) :
    u ∈ jsSliceLast n (l ++ [u]) := by
  unfold jsSliceLast
  have hlen : (l ++ [u]).length - n ≤ l.length := by
    simp only [List.length_append, List.length_singleton]
    omega
  rw [List.drop_append_of_le_length hlen]
  exact List.mem_append_right _ (List.mem_singleton.mpr rfl)

theorem batchesOfPos_mem (m : Nat) :
    ∀ (n : Nat) (l : List α), l.length ≤ n →
      ∀ b ∈ batchesOfPos m l, b ≠ [] ∧ b.length ≤ m + 1 := by
  intro n
  induction n with
  | zero =>
    intro l hl b hb
    have : l = [] := List.length_eq_zero.mp (by omega)
    subst this
    simp [batchesOfPos] at hb
  | succ k ih =>
    intro l hl b hb
    cases l with
    | nil => simp [batchesOfPos] at hb
    | cons x xs =>
      simp only [batchesOfPos] at hb
      rcases List.mem_cons.mp hb with rfl | hb'
      · refine ⟨List.cons_ne_nil _ _, ?_⟩
        simp only [List.length_cons, List.length_take]
        omega
      · refine ih (xs.drop m) ?_ b hb'
        simp only [List.length_cons] at hl
        simp only [List.length_drop]
        omega

theorem batchesOfPos_ne_nil (m : Nat) (l : List α) (h : l ≠ []) :
    batchesOfPos m l ≠ [] := by
  cases l with
  | nil => exact absurd rfl h
  | cons x xs => simp [batchesOfPos]

/-! ### Generation orchestrator lemmas -/

theorem selectProviderModel_unmatched (providers : List String) (m : String)
    (hne : m ≠ "") (hauto : m ≠ "auto")
    (h1 : strIncludes m "gpt" = false) (h2 : strIncludes m "claude" = false)
    (h3 : strIncludes m "command" = false) (h4 : strIncludes m "gemini" = false) :
    selectProviderModel providers (some m)
      = (providers.headD "google",
         getDefaultModelForProvider (providers.headD "google")) := by
  simp only [selectProviderModel, jsOrString]
  rw [if_neg hne, if_neg hauto]
  simp [parseModelString, h1, h2, h3, h4]

/-- **C8** (corrected): `healthCheck` issues one minimal request per
available provider, but the model string `"<provider>:auto"` matches none
of the substrings `gpt`/`claude`/`command`/`gemini` recognized by
`parseModelString`, so every probe is routed to the *first* available
provider (with its default model), not to the provider being probed; the
health flag records non-empty content of that misrouted call (`false` on
failure). -/
theorem healthCheck_misroutes (providers : List String)
    (port : String → String → Except String GenerationResult) (p : String)
    (hp : p ∈ providers)
    (hfour : p = "google" ∨ p = "openai" ∨ p = "anthropic" ∨ p = "cohere") :
    selectProviderModel providers (some (p ++ ":auto"))
      = (providers.headD "google",
         getDefaultModelForProvider (providers.headD "google")) ∧
    (p, healthFlag (match port (providers.headD "google")
          (getDefaultModelForProvider (providers.headD "google")) with
        | Except.ok r => Except.ok r
        | Except.error e => Except.error ("Generation failed: " ++ e)))
      ∈ healthCheck providers port := by
  have hsel : selectProviderModel providers (some (p ++ ":auto"))
      = (providers.headD "google",
         getDefaultModelForProvider (providers.headD "google")) := by
    rcases hfour with rfl | rfl | rfl | rfl <;>
      exact selectProviderModel_unmatched providers _ (by decide) (by decide)
        (by decide) (by decide) (by decide) (by decide)
  refine ⟨hsel, ?_⟩
  have hlen : ¬ providers.length = 0 := by
    simp only [List.length_eq_zero]
    exact List.ne_nil_of_mem hp
  have hgen : generateResponseSvc providers port (some (p ++ ":auto"))
      = match port (providers.headD "google")
          (getDefaultModelForProvider (providers.headD "google")) with
        | Except.ok r => Except.ok r
        | Except.error e => Except.error ("Generation failed: " ++ e) := by
    unfold generateResponseSvc
    rw [if_neg hlen, hsel]
  unfold healthCheck
  refine List.mem_map.mpr ⟨p, hp, ?_⟩
  rw [hgen]

/-- Witness for `healthCheck_misroutes`: two providers, the second healthy
by itself, still probed through the first. -/
theorem healthCheck_misroutes_witness :
    selectProviderModel ["google", "openai"] (some ("openai" ++ ":auto"))
      = (["google", "openai"].headD "google",
         getDefaultModelForProvider (["google", "openai"].headD "google")) ∧
    ("openai", healthFlag (match (fun p (_ : String) =>
          if p = "openai" then
            Except.ok (GenerationResult.mk "OK" "gpt-4o" 1 "openai" "stop")
          else Except.error "down") (["google", "openai"].headD "google")
          (getDefaultModelForProvider (["google", "openai"].headD "google")) with
        | Except.ok r => Except.ok r
        | Except.error e => Except.error ("Generation failed: " ++ e)))
      ∈ healthCheck ["google", "openai"] (fun p (_ : String) =>
          if p = "openai" then
            Except.ok (GenerationResult.mk "OK" "gpt-4o" 1 "openai" "stop")
          else Except.error "down") :=
  healthCheck_misroutes ["google", "openai"]
    (fun p (_ : String) =>
      if p = "openai" then Except.ok (GenerationResult.mk "OK" "gpt-4o" 1 "openai" "stop")
      else Except.error "down")
    "openai" (by simp) (Or.inr (Or.inl rfl))

/-- **C8 counterexample**: with providers `["google", "openai"]` where the
`openai` port answers `"OK"` and the `google` port is down, `healthCheck`
reports *both* providers unhealthy — the `openai` probe was issued to
`google`, so the claim "issues the request to that same provider" fails. -/
theorem healthCheck_misroutes_counterexample :
    healthCheck ["google", "openai"]
        (fun p (_ : String) =>
          if p = "openai" then
            Except.ok (GenerationResult.mk "OK" "gpt-4o" 1 "openai" "stop")
          else Except.error "down")
      = [("google", false), ("openai", false)] ∧
    healthFlag (Except.ok (GenerationResult.mk "OK" "gpt-4o" 1 "openai" "stop")) = true := by
  decide

/-! ### Embedding gateway theorems -/

/-- **C10** (confirmed): `createEmbeddingBatch` rejects an empty input or
more than 100 texts before issuing any provider request (empty trace), and
`addDocuments` partitions its chunks into batches of 1–100, so the upsert
path never violates the cap. -/
theorem createEmbeddingBatch_input_cap (texts : List String)
    (embedOne : String → Except String EmbeddingResult)
    (hbad : texts = [] ∨ 100 < texts.length) :
    ((createEmbeddingBatchTrace texts embedOne).2 = [] ∧
      ((createEmbeddingBatchTrace texts embedOne).1
          = Except.error "Texts array is required for batch embedding" ∨
        (createEmbeddingBatchTrace texts embedOne).1
          = Except.error "Too many texts for batch embedding (max: 100)")) ∧
    (∀ chunks : List DocumentChunk, ∀ b ∈ batchesOfPos 99 chunks,
      b ≠ [] ∧ b.length ≤ 100) := by
  constructor
  · rcases hbad with rfl | h
    · exact ⟨rfl, Or.inl rfl⟩
    · unfold createEmbeddingBatchTrace
      rw [if_neg (by omega), if_pos h]
      exact ⟨rfl, Or.inr rfl⟩
  · intro chunks b hb
    exact batchesOfPos_mem 99 chunks.length chunks (le_refl _) b hb

/-- Witness for `createEmbeddingBatch_input_cap` on the empty input. -/
theorem createEmbeddingBatch_input_cap_witness :
    ((createEmbeddingBatchTrace [] (fun _ => Except.error "unused")).2 = [] ∧
      ((createEmbeddingBatchTrace [] (fun _ => Except.error "unused")).1
          = Except.error "Texts array is required for batch embedding" ∨
        (createEmbeddingBatchTrace [] (fun _ => Except.error "unused")).1
          = Except.error "Too many texts for batch embedding (max: 100)")) ∧
    (∀ chunks : List DocumentChunk, ∀ b ∈ batchesOfPos 99 chunks,
      b ≠ [] ∧ b.length ≤ 100) :=
  createEmbeddingBatch_input_cap [] (fun _ => Except.error "unused") (Or.inl rfl)

/-! ### Vector store theorems -/

/-- **C4** (corrected): `VectorService.search` itself *re-throws*
embedding and index failures as `Vector search failed:` errors; the
conversion to an empty result list happens one layer up, in the chat
route's `performVectorSearch` catch-all. -/
theorem vectorSearch_error_to_empty (isInit : Bool) (query : String)
    (embedPort : Except String (List Int))
    (indexPort : List Int → Except String (List QdrantHit))
    (hinit : isInit = true) (hq : jsTrimString query ≠ "") :
    (∀ e, embedPort = Except.error e →
      vectorSearch isInit query embedPort indexPort
        = Except.error ("Vector search failed: " ++ e)) ∧
    (∀ v e, embedPort = Except.ok v → indexPort v = Except.error e →
      vectorSearch isInit query embedPort indexPort
        = Except.error ("Vector search failed: " ++ e)) ∧
    (∀ (avail : Bool) (e : String), performVectorSearch avail (Except.error e) = []) := by
  subst hinit
  refine ⟨?_, ?_, ?_⟩
  · intro e he
    simp [vectorSearch, hq, he]
  · intro v e hv he
    simp [vectorSearch, hq, hv, he]
  · intro avail e
    cases avail <;> simp [performVectorSearch]

/-- Witness for `vectorSearch_error_to_empty` at a failing embedding. -/
theorem vectorSearch_error_to_empty_witness :
    (∀ e, (Except.error "boom" : Except String (List Int)) = Except.error e →
      vectorSearch true "query" (Except.error "boom") (fun _ => Except.ok [])
        = Except.error ("Vector search failed: " ++ e)) ∧
    (∀ v e, (Except.error "boom" : Except String (List Int)) = Except.ok v →
      (fun (_ : List Int) => (Except.ok [] : Except String (List QdrantHit))) v
        = Except.error e →
      vectorSearch true "query" (Except.error "boom") (fun _ => Except.ok [])
        = Except.error ("Vector search failed: " ++ e)) ∧
    (∀ (avail : Bool) (e : String), performVectorSearch avail (Except.error e) = []) :=
  vectorSearch_error_to_empty true "query" (Except.error "boom")
    (fun _ => Except.ok []) rfl (by decide)

/-- **C4 counterexample**: a failing embedding call makes
`VectorService.search` return an error — not an empty result list — so
the claim that the *gateway* call returns `[]` on failure is false. -/
theorem vectorSearch_error_counterexample :
    vectorSearch true "query" (Except.error "boom") (fun _ => Except.ok [])
      = Except.error "Vector search failed: boom" ∧
    vectorSearch true "query" (Except.error "boom") (fun _ => Except.ok [])
      ≠ Except.ok [] := by
  constructor
  · rfl
  · intro h
    exact Except.noConfusion h

/-- **C5** (corrected): an index error during `addDocuments` propagates to
the caller as a thrown `Failed to add documents:` failure, but the two
delete operations *catch* index errors and report them through their
normal return value (`false` for `deleteDocument`, `0` for
`deleteChunks`) instead of propagating. -/
theorem addDocuments_propagates_delete_catches (chunks : List DocumentChunk)
    (embedBatch : List String → Except String (List EmbeddingResult))
    (upsert : List UpsertPoint → Except String Unit) (e₀ : String)
    (hchunks : chunks ≠ [])
    (hupsert : ∀ pts, upsert pts = Except.error e₀) :
    (∃ e, addDocuments true chunks embedBatch upsert = Except.error e) ∧
    (∀ (did e : String), deleteDocument true did (Except.error e) = Except.ok false) ∧
    (∀ (ids : List String) (e : String), ids ≠ [] →
      deleteChunks true ids (Except.error e) = Except.ok 0) := by
  refine ⟨?_, ?_, ?_⟩
  · unfold addDocuments
    rw [if_neg (by simp), if_neg (by simp only [List.length_eq_zero]; exact hchunks)]
    rcases hB : batchesOfPos 99 chunks with _ | ⟨b, rest⟩
    · exact absurd hB (batchesOfPos_ne_nil 99 chunks hchunks)
    · simp only [addDocumentsLoop]
      cases hemb : embedBatch (b.map fun c => c.content) with
      | error e => exact ⟨_, rfl⟩
      | ok embs => simp only [hupsert]; exact ⟨_, rfl⟩
  · intro did e
    rfl
  · intro ids e hids
    unfold deleteChunks
    rw [if_neg (by simp), if_neg (by simp only [List.length_eq_zero]; exact hids)]

/-- Witness for `addDocuments_propagates_delete_catches` with one chunk
and an index that always fails. -/
theorem addDocuments_propagates_delete_catches_witness :
    (∃ e, addDocuments true [DocumentChunk.mk "doc_1_chunk_000" "hello" "f.txt" 0 "doc_1"]
        (fun _ => Except.ok []) (fun _ => Except.error "down") = Except.error e) ∧
    (∀ (did e : String), deleteDocument true did (Except.error e) = Except.ok false) ∧
    (∀ (ids : List String) (e : String), ids ≠ [] →
      deleteChunks true ids (Except.error e) = Except.ok 0) :=
  addDocuments_propagates_delete_catches
    [DocumentChunk.mk "doc_1_chunk_000" "hello" "f.txt" 0 "doc_1"]
    (fun _ => Except.ok []) (fun _ => Except.error "down") "down"
    (by decide) (fun _ => rfl)

/-- **C5 counterexample**: both delete operations return normally
(`Except.ok`) when the index call fails — the error does not propagate to
the caller as a failure. -/
theorem delete_swallows_counterexample :
    deleteDocument true "doc_1" (Except.error "index down") = Except.ok false ∧
    deleteChunks true ["c1"] (Except.error "index down") = Except.ok 0 :=
  ⟨rfl, rfl⟩

/-! ### Chat route theorems -/

/-- **C1** (confirmed): when validation passes and generation fails — the
orchestrator call errors, or no provider is available — the chat
invocation still returns a success result carrying the fixed apology
answer with `model "fallback"`, `tokensUsed 0`, and the route-level
generation value `provider "system"`; no error reaches the caller. -/
theorem chat_generation_fallback (message : String) (sessionHistory : List ChatMsg)
    (sessionId : String) (providers : List String) (searchAvailable : Bool)
    (searchOutcome : Except String (List SearchResult))
    (genPort : List ChatMsg → Except String GenerationResult)
    (hv1 : jsTrimString message ≠ "") (hv2 : message.length ≤ 4000)
    (hfail : providers = [] ∨
      ∃ e, genPort (routeGenMessages (sessionHistory ++ [mkUserMsg message])
          (performVectorSearch searchAvailable searchOutcome) message)
        = Except.error e) :
    ∃ resp : ChatResponse,
      (chatPost message sessionHistory sessionId providers searchAvailable
          searchOutcome genPort).1 = ChatOutcome.success resp ∧
      resp.answer = fallbackAiResponse.content ∧
      resp.model_used = "fallback" ∧
      resp.tokens_used = 0 ∧
      fallbackAiResponse.provider = "system" ∧
      fallbackAiResponse.content
        = "죄송합니다. 현재 AI 서비스에 문제가 있어 답변을 생성할 수 없습니다. 잠시 후 다시 시도해주세요." := by
  have hai : routeGenerateResponse providers genPort (sessionHistory ++ [mkUserMsg message])
      (performVectorSearch searchAvailable searchOutcome) message = fallbackAiResponse := by
    rcases hfail with rfl | ⟨e, he⟩
    · rfl
    · unfold routeGenerateResponse
      split
      · rfl
      · rw [he]
  refine ⟨ChatResponse.mk fallbackAiResponse.content sessionId
      (performVectorSearch searchAvailable searchOutcome)
      fallbackAiResponse.tokens_used fallbackAiResponse.model,
    ?_, rfl, rfl, rfl, rfl, rfl⟩
  unfold chatPost
  rw [if_neg hv1, if_neg (by omega)]
  simp only [hai]

/-- Witness for `chat_generation_fallback`: empty provider list. -/
theorem chat_generation_fallback_witness :
    ∃ resp : ChatResponse,
      (chatPost "hi" [] "s1" [] true (Except.ok [])
          (fun _ => Except.error "x")).1 = ChatOutcome.success resp ∧
      resp.answer = fallbackAiResponse.content ∧
      resp.model_used = "fallback" ∧
      resp.tokens_used = 0 ∧
      fallbackAiResponse.provider = "system" ∧
      fallbackAiResponse.content
        = "죄송합니다. 현재 AI 서비스에 문제가 있어 답변을 생성할 수 없습니다. 잠시 후 다시 시도해주세요." :=
  chat_generation_fallback "hi" [] "s1" [] true (Except.ok [])
    (fun _ => Except.error "x") (by decide) (by decide) (Or.inl rfl)

/-- **C6** (confirmed): starting from a session within the cap, any chat
invocation leaves at most 10 messages; on the appending (validated) path
the resulting history is exactly the last-10 suffix of the old history
plus the new user and assistant messages — oldest dropped first, order
preserved (a suffix of the appended sequence), exactly 10 when more than
10 were appended. -/
theorem chat_history_cap (message : String) (sessionHistory : List ChatMsg)
    (sessionId : String) (providers : List String) (searchAvailable : Bool)
    (searchOutcome : Except String (List SearchResult))
    (genPort : List ChatMsg → Except String GenerationResult)
    (h10 : sessionHistory.length ≤ 10) :
    (chatPost message sessionHistory sessionId providers searchAvailable
        searchOutcome genPort).2.length ≤ 10 ∧
    (jsTrimString message ≠ "" → message.length ≤ 4000 →
      ∃ assistant : ChatMsg,
        (chatPost message sessionHistory sessionId providers searchAvailable
            searchOutcome genPort).2
          = jsSliceLast 10 (sessionHistory ++ [mkUserMsg message, assistant]) ∧
        (chatPost message sessionHistory sessionId providers searchAvailable
            searchOutcome genPort).2
          <:+ (sessionHistory ++ [mkUserMsg message, assistant]) ∧
        (10 < sessionHistory.length + 2 →
          (chatPost message sessionHistory sessionId providers searchAvailable
              searchOutcome genPort).2.length = 10)) := by
  by_cases hv1 : jsTrimString message = ""
  · refine ⟨?_, ?_⟩
    · simp only [chatPost, if_pos hv1]
      exact h10
    · intro hv1' _
      exact absurd hv1 hv1'
  · by_cases hv2 : 4000 < message.length
    · refine ⟨?_, ?_⟩
      · simp only [chatPost, if_neg hv1, if_pos hv2]
        exact h10
      · intro _ hv2'
        omega
    · have heq : (chatPost message sessionHistory sessionId providers searchAvailable
          searchOutcome genPort).2
          = jsSliceLast 10 (sessionHistory ++ [mkUserMsg message,
              mkAssistantMsg (routeGenerateResponse providers genPort
                  (sessionHistory ++ [mkUserMsg message])
                  (performVectorSearch searchAvailable searchOutcome) message).content
                (routeGenerateResponse providers genPort
                  (sessionHistory ++ [mkUserMsg message])
                  (performVectorSearch searchAvailable searchOutcome) message).model
                (routeGenerateResponse providers genPort
                  (sessionHistory ++ [mkUserMsg message])
                  (performVectorSearch searchAvailable searchOutcome) message).tokens_used
                (performVectorSearch searchAvailable searchOutcome).length]) := by
        simp only [chatPost, if_neg hv1, if_neg hv2, jsSliceLast_cap, List.append_assoc,
          List.singleton_append, List.cons_append, List.nil_append]
      refine ⟨?_, ?_⟩
      · rw [heq, jsSliceLast_length]
        omega
      · intro _ _
        refine ⟨_, heq, ?_, ?_⟩
        · rw [heq]
          exact jsSliceLast_suffix _ _
        · intro hlong
          rw [heq, jsSliceLast_length]
          simp only [List.length_append, List.length_cons, List.length_nil]
          omega

/-- Witness for `chat_history_cap` at an empty session. -/
theorem chat_history_cap_witness :
    (chatPost "hi" [] "s1" [] true (Except.ok [])
        (fun _ => Except.error "x")).2.length ≤ 10 ∧
    (jsTrimString "hi" ≠ "" → "hi".length ≤ 4000 →
      ∃ assistant : ChatMsg,
        (chatPost "hi" [] "s1" [] true (Except.ok [])
            (fun _ => Except.error "x")).2
          = jsSliceLast 10 ([] ++ [mkUserMsg "hi", assistant]) ∧
        (chatPost "hi" [] "s1" [] true (Except.ok [])
            (fun _ => Except.error "x")).2
          <:+ ([] ++ [mkUserMsg "hi", assistant]) ∧
        (10 < List.length ([] : List ChatMsg) + 2 →
          (chatPost "hi" [] "s1" [] true (Except.ok [])
              (fun _ => Except.error "x")).2.length = 10)) :=
  chat_history_cap "hi" [] "s1" [] true (Except.ok []) (fun _ => Except.error "x")
    (by decide)

/-- **C9** (corrected): the user message is appended to the session
*before* context assembly, and `prepareContext` takes the last 6 messages
of that history, so the generator receives
`[system, ...last-6-including-current-user, user]` — the active query
appears (at least) twice, once inside the history slice and once as the
trailing user entry, not exactly once. -/
theorem routeGenMessages_query_twice (sessionHistory : List ChatMsg)
    (sources : List RouteSource) (query : String) :
    routeGenMessages (sessionHistory ++ [mkUserMsg query]) sources query
      = ChatMsg.mk "system" (systemPrompt (relevantDocumentsOf sources)) none none none ::
        (jsSliceLast 6 (sessionHistory ++ [mkUserMsg query]) ++ [mkUserMsg query]) ∧
    2 ≤ (routeGenMessages (sessionHistory ++ [mkUserMsg query]) sources query).countP
        (fun m => (m.role == "user") && (m.content == query)) := by
  have hidem := jsSliceLast_idem 6 (sessionHistory ++ [mkUserMsg query])
  constructor
  · unfold routeGenMessages
    rw [hidem]
  · unfold routeGenMessages
    rw [hidem]
    have hmem : mkUserMsg query ∈ jsSliceLast 6 (sessionHistory ++ [mkUserMsg query]) :=
      mem_jsSliceLast_append_singleton 6 (by omega) sessionHistory (mkUserMsg query)
    have hpred : (((mkUserMsg query).role == "user") && ((mkUserMsg query).content == query))
        = true := by
      simp [mkUserMsg]
    have h1 : 0 < (jsSliceLast 6 (sessionHistory ++ [mkUserMsg query])).countP
        (fun m => (m.role == "user") && (m.content == query)) :=
      List.countP_pos_iff.mpr ⟨mkUserMsg query, hmem, hpred⟩
    have hsys : (("system" : String) == "user") = false := by decide
    rw [List.countP_cons, List.countP_append, List.countP_cons]
    simp only [hsys, hpred, Bool.false_and, List.countP_nil, if_true, if_false,
      Bool.false_eq_true, Nat.zero_add, Nat.add_zero]
    omega

/-- **C9 counterexample**: for an empty session and query `"hi"`, the
message list handed to the orchestrator contains the user entry `"hi"`
twice — refuting "the active query appears exactly once in the list". -/
theorem routeGenMessages_duplicate_counterexample :
    (routeGenMessages [mkUserMsg "hi"] [] "hi").countP
        (fun m => (m.role == "user") && (m.content == "hi")) = 2 ∧
    ¬ (routeGenMessages [mkUserMsg "hi"] [] "hi").countP
        (fun m => (m.role == "user") && (m.content == "hi")) = 1 := by
  decide

end Ragjs
